import Mathlib

/-!
Verification development for the authentication & authorization core of the
healthcare-records backend (fastapi_backend).  The Python source is shallowly
embedded: documents are association lists of string keys to JSON-like values,
Mongo collections are lists of documents with an insertion counter, JWTs are
records of (payload, signing key, algorithm), and time is Unix seconds (Nat).
Each definition is annotated with the source file and function it embeds.
-/

namespace Healthcare

/-- JSON-like values stored in documents and JWT claims.  Lists that occur in
the source are lists of strings (e.g. `conditions: []`), so list values are
specialised to string lists. -/
inductive Value where
  | str (s : String)
  | num (n : Nat)
  | bool (b : Bool)
  | null
  | listStr (xs : List String)
deriving DecidableEq, Repr

/-- A document / claims payload: keys to values in insertion order, mirroring
Python dict literals. -/
abbrev Doc := List (String × Value)

/-- First value bound to key `k`, mirroring Python `d.get(k)`. -/
def findKey (d : Doc) (k : String) : Option Value :=
  match d with
  | [] => none
  | (k2, v) :: rest => if k2 = k then some v else findKey rest k

/-- In-place update of an existing key, mirroring Python `d[k] = v` when the
key is already present (the dict keeps the key position). -/
def setKey (d : Doc) (k : String) (v : Value) : Doc :=
  d.map (fun kv => if kv.1 = k then (kv.1, v) else kv)

/-- A Mongo collection as seen through the driver calls the source makes:
`find_one` and `insert_one`.  Object ids are modelled as decimal strings
from a per-collection counter (as in the repository's own FakeCollection
test double in tests/test_auth.py). -/
structure Collection where
  data : List Doc
  idCounter : Nat
deriving DecidableEq, Repr

/-- Does a stored document match a Mongo equality filter? -/
def matchesFilter (item : Doc) (filter : Doc) : Bool :=
  filter.all (fun kv => decide (findKey item kv.1 = some kv.2))

/-- Mongo `collection.find_one(filter)`: first matching document. -/
def find_one (c : Collection) (filter : Doc) : Option Doc :=
  c.data.find? (fun item => matchesFilter item filter)

/-- Mongo `collection.insert_one(doc)`: appends the document with a fresh
`_id` and returns the new collection state and the inserted id. -/
def insert_one (c : Collection) (doc : Doc) : Collection × String :=
  let id := toString c.idCounter
  (⟨c.data ++ [doc ++ [("_id", Value.str id)]], c.idCounter + 1⟩, id)

/-- The database handle: the collections the embedded routes touch. -/
structure DB where
  users : Collection
  patients : Collection
  doctors : Collection
  profiles : Collection
deriving DecidableEq, Repr

/-- Auth-relevant settings of src/core/config.py (Settings): JWT secret,
pinned algorithm, and the two token lifetimes. -/
structure Settings where
  JWT_SECRET : String
  JWT_ALG : String
  ACCESS_TOKEN_EXPIRE_MINUTES : Nat
  REFRESH_TOKEN_EXPIRE_DAYS : Nat
deriving DecidableEq, Repr

/-- A signed JWT: the serialized claims payload together with the key and
algorithm it was signed with.  A decode succeeds exactly when it is attempted
with the same key and an algorithm list containing the signing algorithm,
which models HMAC signature verification. -/
structure Jwt where
  payload : Doc
  key : String
  alg : String
deriving DecidableEq, Repr

/-- Errors raised by the jwt library (python-jose JWTError subclasses). -/
inductive JWTError where
  | invalidAlgorithm
  | invalidSignature
  | expiredSignature
  | claimsError
deriving DecidableEq, Repr

/-- Models python-jose `jwt.encode(payload, key, algorithm)`. -/
def jwtEncode (payload : Doc) (key : String) (alg : String) : Jwt :=
  ⟨payload, key, alg⟩

/-- Models python-jose `jwt.decode(token, key, algorithms)` called at Unix
time `now` with the library's default options (leeway 0): the declared
algorithm must be in the allowed list, the signature must verify against
`key`, and an `exp` claim is rejected exactly when `exp < now`
(jose `_validate_exp`: `if exp < (now - leeway): raise ExpiredSignatureError`),
so a token is still accepted at the exact expiry instant.  A missing `exp`
claim is not checked; a non-integer `exp` raises a claims error. -/
def jwtDecode (token : Jwt) (key : String) (algorithms : List String)
    (now : Nat) : Except JWTError Doc :=
  if token.alg ∉ algorithms then .error .invalidAlgorithm
  else if token.key ≠ key then .error .invalidSignature
  else
    match findKey token.payload "exp" with
    | some (.num exp) =>
        if exp < now then .error .expiredSignature else .ok token.payload
    | some _ => .error .claimsError
    | none => .ok token.payload

/-- src/core/security.py `create_token(subject, token_type, expires_delta)`
at issuance time `now` (Unix seconds): builds the claims dict
`{sub, type, iat, exp}` in that order, with `exp = iat + ttl` seconds, and
signs it with the server secret and the server-configured algorithm.
`expires_delta` is the ttl in whole seconds. -/
def create_token (settings : Settings) (now : Nat) (subject : String)
    (token_type : String) (expires_delta : Nat) : Jwt :=
  jwtEncode
    [("sub", .str subject), ("type", .str token_type),
     ("iat", .num now), ("exp", .num (now + expires_delta))]
    settings.JWT_SECRET settings.JWT_ALG

/-- src/core/security.py `create_access_token(subject)`:
kind pinned to "access", ttl `ACCESS_TOKEN_EXPIRE_MINUTES` minutes. -/
def create_access_token (settings : Settings) (now : Nat)
    (subject : String) : Jwt :=
  create_token settings now subject "access"
    (settings.ACCESS_TOKEN_EXPIRE_MINUTES * 60)

/-- src/core/security.py `create_refresh_token(subject)`:
kind pinned to "refresh", ttl `REFRESH_TOKEN_EXPIRE_DAYS` days. -/
def create_refresh_token (settings : Settings) (now : Nat)
    (subject : String) : Jwt :=
  create_token settings now subject "refresh"
    (settings.REFRESH_TOKEN_EXPIRE_DAYS * 86400)

/-- src/core/security.py `decode_token(token)`:
`jwt.decode(token, settings.JWT_SECRET, algorithms=[settings.JWT_ALG])`.
Note it performs no token-kind check and takes no expected kind. -/
def decode_token (settings : Settings) (now : Nat) (token : Jwt) :
    Except JWTError Doc :=
  jwtDecode token settings.JWT_SECRET [settings.JWT_ALG] now

/-- Modelled from the spec: the bcrypt-class one-way hash behind passlib's
`CryptContext(schemes=["bcrypt"])`, which is a third-party library and not in
src/.  Per the spec (section 4.1) hashing incorporates a random per-call salt
and verification recomputes the digest from the stored salt; the digest is
idealised as the (salt, password) pair so that a match occurs exactly when
the same password is hashed with the stored salt. -/
structure BcryptHash where
  salt : Nat
  digest : Nat × String
deriving DecidableEq, Repr

/-- Modelled from the spec: bcrypt hashing of `password` with a given
per-call random `salt`. -/
def bcrypt_hash (salt : Nat) (password : String) : BcryptHash :=
  ⟨salt, (salt, password)⟩

/-- Modelled from the spec: bcrypt verification recomputes the digest with
the hash's stored salt and compares. -/
def bcrypt_verify (password : String) (h : BcryptHash) : Bool :=
  decide ((h.salt, password) = h.digest)

/-- A candidate hash string handed to verification: either a well-formed
bcrypt hash string or a malformed / wrongly-tagged string. -/
inductive HashString where
  | valid (h : BcryptHash)
  | malformed (s : String)
deriving DecidableEq, Repr

/-- Modelled from the spec: passlib `pwd_context.verify(password, hash)` —
returns the bcrypt comparison on a well-formed hash string and raises
(UnknownHashError / ValueError) on a malformed one.  The raise is modelled
as `Except.error`. -/
def pwd_context_verify (password : String) (hs : HashString) :
    Except String Bool :=
  match hs with
  | .valid h => .ok (bcrypt_verify password h)
  | .malformed s => .error ("UnknownHashError: " ++ s)

/-- passlib `pwd_context.hash(password)` with the per-call random salt made
an explicit parameter. -/
def pwd_context_hash (salt : Nat) (password : String) : HashString :=
  .valid (bcrypt_hash salt password)

/-- src/core/security.py `verify_password(plain_password, hashed_password)`:
`return pwd_context.verify(plain_password, hashed_password)` with no
try/except, so a passlib exception propagates to the caller. -/
def security_verify_password (plain_password : String)
    (hashed_password : HashString) : Except String Bool :=
  pwd_context_verify plain_password hashed_password

/-- src/core/security.py `get_password_hash(password)`. -/
def get_password_hash (salt : Nat) (password : String) : HashString :=
  pwd_context_hash salt password

/-- src/api/auth.py `verify_password(plain_password, password_hash)`: wraps
the passlib call in try/except and returns False on any exception
("In case of invalid hash format or other issues"). -/
def api_verify_password (plain_password : String)
    (password_hash : HashString) : Bool :=
  match pwd_context_verify plain_password password_hash with
  | .ok b => b
  | .error _ => false

/-- src/api/auth.py `hash_password(password)`. -/
def hash_password (salt : Nat) (password : String) : HashString :=
  pwd_context_hash salt password

/-- Auth-relevant settings of src/api/config.py `get_settings()`:
jwt_secret, jwt_algorithm, access_token_expire_minutes. -/
structure ApiSettings where
  jwt_secret : String
  jwt_algorithm : String
  access_token_expire_minutes : Nat
deriving DecidableEq, Repr

/-- src/api/auth.py `create_access_token(subject, role)` with
`additional_claims = None` at issuance time `now`: claims dict
`{sub, role, iat, exp, type: "access"}` in that order, signed with the
configured secret and algorithm. -/
def api_create_access_token (settings : ApiSettings) (now : Nat)
    (subject : String) (role : String) : Jwt :=
  jwtEncode
    [("sub", .str subject), ("role", .str role), ("iat", .num now),
     ("exp", .num (now + settings.access_token_expire_minutes * 60)),
     ("type", .str "access")]
    settings.jwt_secret settings.jwt_algorithm

/-- src/api/auth.py `decode_token(token)`: returns the claims dict if the
jose decode succeeds and None on JWTError. -/
def api_decode_token (settings : ApiSettings) (now : Nat) (token : Jwt) :
    Option Doc :=
  match jwtDecode token settings.jwt_secret [settings.jwt_algorithm] now with
  | .ok payload => some payload
  | .error _ => none

/-- An HTTPException as raised by the routes: status code and detail. -/
structure HTTPException where
  status_code : Nat
  detail : String
deriving DecidableEq, Repr

/-- The user roles of src/models/user.py `Role`. -/
inductive Role where
  | admin
  | doctor
  | patient
deriving DecidableEq, Repr

/-- src/models/user.py `Role.value`. -/
def Role.value : Role → String
  | .admin => "admin"
  | .doctor => "doctor"
  | .patient => "patient"

/-- src/models/user.py `UserInDB` (MongoModel + UserBase + hashed password):
optional id (MongoModel's `id: Optional[PyObjectId] = None`, alias `_id`),
required email, optional full name, role (default patient), active flag
(default True), required hashed password. -/
structure UserInDB where
  id : Option String
  email : String
  full_name : Option String
  role : Role
  is_active : Bool
  hashed_password : String
deriving DecidableEq, Repr

/-- MongoModel `_id` validation (src/models/common.py PyObjectId): absent
means the default None; a stored Mongo ObjectId instance — modelled as an
opaque string — passes the `isinstance(v, ObjectId)` branch; any other
stored shape fails validation. -/
def validate_id : Option Value → Option (Option String)
  | none => some none
  | some (.str s) => some (some s)
  | some _ => none

/-- UserBase `email: EmailStr` validation: the field is required and must be
a string.  The RFC format check itself is done by the third-party
email-validator behind pydantic's EmailStr, which is absent from src/;
every email this program stores already passed the identical EmailStr
validation on the registration request model, so re-validating a stored
string accepts it and the modelled check is presence plus string shape. -/
def validate_email : Option Value → Option String
  | some (.str s) => some s
  | _ => none

/-- UserBase `full_name: Optional[str] = None` validation. -/
def validate_full_name : Option Value → Option (Option String)
  | none => some none
  | some .null => some none
  | some (.str s) => some (some s)
  | some _ => none

/-- UserBase `role: Role = Role.patient` validation: default patient when
absent, otherwise the stored string must be one of the three enum values. -/
def validate_role : Option Value → Option Role
  | none => some .patient
  | some (.str s) =>
      if s = "admin" then some .admin
      else if s = "doctor" then some .doctor
      else if s = "patient" then some .patient
      else none
  | some _ => none

/-- UserBase `is_active: bool = True` validation: default True when absent,
otherwise the stored boolean (pydantic's lax coercions of non-boolean
values never arise for the boolean literals this program stores). -/
def validate_is_active : Option Value → Option Bool
  | none => some true
  | some (.bool b) => some b
  | some _ => none

/-- UserInDB `hashed_password: str` validation: required string. -/
def validate_hashed_password : Option Value → Option String
  | some (.str s) => some s
  | _ => none

/-- src/models/user.py `UserInDB.model_validate(user_doc)` (pydantic):
validates each field as above, applying the declared defaults for absent
optional fields; extra keys are ignored (MongoModel's `extra="ignore"`);
a failing field raises pydantic ValidationError, modelled as None. -/
def UserInDB.model_validate (d : Doc) : Option UserInDB := do
  let id ← validate_id (findKey d "_id")
  let email ← validate_email (findKey d "email")
  let full_name ← validate_full_name (findKey d "full_name")
  let role ← validate_role (findKey d "role")
  let is_active ← validate_is_active (findKey d "is_active")
  let hashed_password ← validate_hashed_password (findKey d "hashed_password")
  some ⟨id, email, full_name, role, is_active, hashed_password⟩

/-- src/core/deps.py `get_current_user(token)` over database state `db` at
time `now`.  Mirrors the source line by line: decode the token (a JWTError
becomes 401 "Could not validate credentials"); reject a `type` claim other
than "access" with 401 "Invalid token type"; reject a falsy `sub`
(missing or empty string) with 401 "Invalid token"; look the user up by id
(`ObjectId` ids are modelled as opaque strings; a non-string `sub` would
make the `ObjectId` constructor raise, modelled as a 500); reject a missing
user or one whose `is_active` field is literally False with 401
"Inactive or not found user"; finally validate the document into the
UserInDB response model — a pydantic ValidationError is unhandled there and
surfaces as a 500. -/
def get_current_user (settings : Settings) (db : DB) (now : Nat)
    (token : Jwt) : Except HTTPException UserInDB :=
  match decode_token settings now token with
  | .error _ => .error ⟨401, "Could not validate credentials"⟩
  | .ok payload =>
    if findKey payload "type" ≠ some (.str "access") then
      .error ⟨401, "Invalid token type"⟩
    else
      match findKey payload "sub" with
      | none => .error ⟨401, "Invalid token"⟩
      | some (.str sub) =>
        if sub = "" then .error ⟨401, "Invalid token"⟩
        else
          match find_one db.users [("_id", .str sub)] with
          | none => .error ⟨401, "Inactive or not found user"⟩
          | some user_doc =>
            if findKey user_doc "is_active" = some (.bool false) then
              .error ⟨401, "Inactive or not found user"⟩
            else
              match UserInDB.model_validate user_doc with
              | some usr => .ok usr
              | none => .error ⟨500, "ValidationError"⟩
      | some _ => .error ⟨500, "TypeError: ObjectId"⟩

/-- src/core/deps.py `require_roles(*roles)`: the inner `_checker` applied to
the already-resolved current user.  Raises 403 "Insufficient permissions"
when the user's role is not among the allowed roles, otherwise passes the
user through unchanged.  It performs no other computation and touches no
state. -/
def require_roles (roles : List Role) (user : UserInDB) :
    Except HTTPException UserInDB :=
  if user.role ∉ roles then
    .error ⟨403, "Insufficient permissions"⟩
  else .ok user

/-- src/routers/auth.py `refresh(payload)` over database state `db` at time
`now`: decodes the supplied refresh token with the server secret and pinned
algorithm (JWTError becomes 400 "Invalid token"); rejects a `type` claim
other than "refresh" with 400 "Invalid token type"; rejects a falsy `sub`
with 400 "Invalid token"; re-checks that the user exists and is not
deactivated (401 "Inactive or not found user"); then issues a fresh
access/refresh token pair. -/
def refresh_endpoint (settings : Settings) (db : DB) (now : Nat)
    (refresh_token : Jwt) : Except HTTPException (Jwt × Jwt) :=
  match jwtDecode refresh_token settings.JWT_SECRET [settings.JWT_ALG] now with
  | .error _ => .error ⟨400, "Invalid token"⟩
  | .ok data =>
    if findKey data "type" ≠ some (.str "refresh") then
      .error ⟨400, "Invalid token type"⟩
    else
      match findKey data "sub" with
      | none => .error ⟨400, "Invalid token"⟩
      | some (.str sub) =>
        if sub = "" then .error ⟨400, "Invalid token"⟩
        else
          match find_one db.users [("_id", .str sub)] with
          | none => .error ⟨401, "Inactive or not found user"⟩
          | some user =>
            if findKey user "is_active" = some (.bool false) then
              .error ⟨401, "Inactive or not found user"⟩
            else
              .ok (create_access_token settings now sub,
                   create_refresh_token settings now sub)
      | some _ => .error ⟨500, "TypeError: ObjectId"⟩

/-- An optional string field as stored in a document (Python `None` becomes
a null value). -/
def optStr : Option String → Value
  | some s => .str s
  | none => .null

/-- src/models/user.py `UserCreate`: the registration payload of the
src/routers draft (role defaults to patient, is_active to True at the
Pydantic layer; both may be supplied). -/
structure UserCreate where
  email : String
  full_name : Option String
  role : Role
  is_active : Bool
  password : String
deriving DecidableEq, Repr

/-- src/routers/auth.py `register_user(payload)` over database state `db`.
Mirrors the source: reject an existing email with 400 "Email already
registered"; build the user document with the requested role, then
overwrite the role with "patient" ("Force role patient for this register
path"); insert the user; insert a patient profile document
`{user_id, full_name, age: None, gender: None, conditions: []}` linked by
the new user id; re-read and return the created user document.  The bcrypt
salt drawn inside `get_password_hash` is the explicit `salt` argument. -/
def register_user (db : DB) (salt : Nat) (payload : UserCreate) :
    Except HTTPException (DB × Doc) :=
  match find_one db.users [("email", .str payload.email)] with
  | some _ => .error ⟨400, "Email already registered"⟩
  | none =>
    let doc : Doc :=
      [("email", .str payload.email),
       ("full_name", optStr payload.full_name),
       ("role", .str payload.role.value),
       ("hashed_password", .str ("bcrypt$" ++ toString salt ++ "$" ++ payload.password)),
       ("is_active", .bool true)]
    let doc := setKey doc "role" (.str "patient")
    let (users2, user_id) := insert_one db.users doc
    let patient_doc : Doc :=
      [("user_id", .str user_id),
       ("full_name", optStr payload.full_name),
       ("age", .null), ("gender", .null),
       ("conditions", .listStr [])]
    let (patients2, _) := insert_one db.patients patient_doc
    match find_one users2 [("_id", .str user_id)] with
    | some created => .ok ({ db with users := users2, patients := patients2 }, created)
    | none => .error ⟨500, "created user not found"⟩

/-- src/api/routes/auth.py `RegisterRequest`: email, password, optional full
name, and a role string. -/
structure RegisterRequest where
  email : String
  password : String
  full_name : Option String
  role : String
deriving DecidableEq, Repr

/-- src/api/routes/auth.py `UserPublic`: the response model of register. -/
structure UserPublic where
  id : String
  email : String
  role : String
  full_name : Option String
deriving DecidableEq, Repr

/-- src/api/routes/auth.py: the user document built by `register`. The hash
string records salt and password, standing for the bcrypt output of
`hash_password`. -/
def api_user_doc (salt : Nat) (payload : RegisterRequest) : Doc :=
  [("email", .str payload.email),
   ("password_hash", .str ("bcrypt$" ++ toString salt ++ "$" ++ payload.password)),
   ("role", .str payload.role),
   ("full_name", optStr payload.full_name)]

/-- src/api/routes/auth.py: the role-specific profile stub built by
`register` — base fields `{user_id, email, full_name, role}` then
role-specific defaults appended by `profile_stub.update`. -/
def profile_stub (user_id : String) (payload : RegisterRequest) : Doc :=
  [("user_id", .str user_id),
   ("email", .str payload.email),
   ("full_name", optStr payload.full_name),
   ("role", .str payload.role)] ++
  (if payload.role = "patient" then
    [("medical_history", .listStr []), ("allergies", .listStr []),
     ("age", .null)]
   else if payload.role = "doctor" then
    [("specialization", .null), ("years_experience", .null),
     ("license_no", .null)]
   else [])

/-- src/api/routes/auth.py `register(payload, db)`.  Mirrors the source:
reject a role outside {patient, doctor} with 400 "Invalid role"; reject an
existing email with 409 "Email already registered"; insert the user
document; insert the role-specific profile stub into the collection chosen
by `_get_profile_collection` (patients / doctors / profiles); return the
public user.  A failing call returns before any write, so the database
state is only changed on success. -/
def api_register (db : DB) (salt : Nat) (payload : RegisterRequest) :
    Except HTTPException (DB × UserPublic) :=
  if payload.role ≠ "patient" ∧ payload.role ≠ "doctor" then
    .error ⟨400, "Invalid role"⟩
  else
    match find_one db.users [("email", .str payload.email)] with
    | some _ => .error ⟨409, "Email already registered"⟩
    | none =>
      let (users2, user_id) := insert_one db.users (api_user_doc salt payload)
      let stub := profile_stub user_id payload
      let db2 : DB :=
        if payload.role = "patient" then
          { db with users := users2, patients := (insert_one db.patients stub).1 }
        else if payload.role = "doctor" then
          { db with users := users2, doctors := (insert_one db.doctors stub).1 }
        else
          { db with users := users2, profiles := (insert_one db.profiles stub).1 }
      .ok (db2, ⟨user_id, payload.email, payload.role, payload.full_name⟩)

/-- Concrete server settings (the values of tests/test_auth.py). -/
def settings0 : Settings := ⟨"test-secret", "HS256", 30, 7⟩

/-- An empty database (all id counters start at 1, as in the repository's
FakeCollection test double). -/
def dbEmpty : DB := ⟨⟨[], 1⟩, ⟨[], 1⟩, ⟨[], 1⟩, ⟨[], 1⟩⟩

/-- A stored user document whose `is_active` flag has been set to False. -/
def inactiveUserDoc : Doc :=
  [("_id", Value.str "1"), ("email", Value.str "a@x.com"),
   ("role", Value.str "patient"), ("hashed_password", Value.str "h"),
   ("is_active", Value.bool false)]

/-- A database holding exactly the deactivated user. -/
def dbInactive : DB := ⟨⟨[inactiveUserDoc], 2⟩, ⟨[], 1⟩, ⟨[], 1⟩, ⟨[], 1⟩⟩

/-- A stored user document that lacks the `is_active` field entirely. -/
def noFlagUserDoc : Doc :=
  [("_id", Value.str "1"), ("email", Value.str "b@x.com"),
   ("role", Value.str "patient"), ("hashed_password", Value.str "h")]

/-- A database holding exactly the user without an `is_active` field. -/
def dbNoFlag : DB := ⟨⟨[noFlagUserDoc], 2⟩, ⟨[], 1⟩, ⟨[], 1⟩, ⟨[], 1⟩⟩

/-- A concrete resolved user for the role-guard witness. -/
def sampleUser : UserInDB :=
  ⟨some "1", "a@x.com", some "A", Role.patient, true, "h"⟩

/-- A concrete patient registration request (api draft). -/
def regPatient : RegisterRequest := ⟨"a@x.com", "secret123", some "A", "patient"⟩

/-- A concrete doctor registration request (api draft). -/
def regDoctor : RegisterRequest := ⟨"doc@x.com", "secret123", some "Doc", "doctor"⟩

/-- A registration payload requesting the doctor role (routers draft). -/
def doctorPayload : UserCreate := ⟨"doc@x.com", some "Doc", Role.doctor, true, "secret123"⟩

/-- C1 counterexample: the claim says the payload of the kind-generic token
issuer contains exactly the claims sub, role, type, iat, exp.  But the
payload of `create_token` (src/core/security.py, the only issuance operation
parameterised over the kind) contains no `role` claim at all: at subject
"user-1", kind "access" and positive ttl 60 the `role` lookup is empty while
the payload is exactly sub, type, iat, exp. -/
theorem C1_counterexample :
    findKey (create_token settings0 0 "user-1" "access" 60).payload "role" = none ∧
    (create_token settings0 0 "user-1" "access" 60).payload =
      [("sub", .str "user-1"), ("type", .str "access"),
       ("iat", .num 0), ("exp", .num 60)] ∧
    0 < 60 := by
  decide

/-- C1 amended: for every subject, kind and ttl, `create_token` produces a
token whose payload contains exactly the claims sub = subject, type = kind,
iat = the issuance time, and exp = iat + ttl — with no role claim — signed
with the server-configured secret and the server-configured, pinned
algorithm (the caller supplies neither). -/
theorem C1_token_payload_exact (settings : Settings) (now : Nat)
    (subject kind : String) (ttl : Nat) :
    (create_token settings now subject kind ttl).payload =
      [("sub", .str subject), ("type", .str kind),
       ("iat", .num now), ("exp", .num (now + ttl))] ∧
    (create_token settings now subject kind ttl).key = settings.JWT_SECRET ∧
    (create_token settings now subject kind ttl).alg = settings.JWT_ALG :=
  ⟨rfl, rfl, rfl⟩

/-- C2 counterexample: the claim says cross-kind rejection is enforced by the
token-verification layer itself.  But `decode_token` (the verification layer,
src/core/security.py) takes no expected kind and accepts a freshly issued
refresh token: it returns the payload — whose type claim is "refresh" —
rather than failing, so any kind check is left to individual callers. -/
theorem C2_counterexample :
    decode_token settings0 0 (create_refresh_token settings0 0 "user-1") =
      .ok [("sub", .str "user-1"), ("type", .str "refresh"),
           ("iat", .num 0), ("exp", .num 604800)] := rfl

/-- C2 amended: cross-kind rejection does hold at every consuming call site,
but it is implemented in the callers rather than in `decode_token`: for every
database state and unexpired cross-kind token, `get_current_user`
(src/core/deps.py) rejects a refresh-kind token with 401 "Invalid token
type", and the refresh endpoint (src/routers/auth.py) rejects an access-kind
token with 400 "Invalid token type". -/
theorem C2_kind_checked_in_callers (settings : Settings) (db : DB)
    (t now : Nat) (sub : String)
    (h1 : now ≤ t + settings.REFRESH_TOKEN_EXPIRE_DAYS * 86400)
    (h2 : now ≤ t + settings.ACCESS_TOKEN_EXPIRE_MINUTES * 60) :
    get_current_user settings db now (create_refresh_token settings t sub) =
      .error ⟨401, "Invalid token type"⟩ ∧
    refresh_endpoint settings db now (create_access_token settings t sub) =
      .error ⟨400, "Invalid token type"⟩ := by
  have hx1 : ¬ (t + settings.REFRESH_TOKEN_EXPIRE_DAYS * 86400 < now) := by omega
  have hx2 : ¬ (t + settings.ACCESS_TOKEN_EXPIRE_MINUTES * 60 < now) := by omega
  constructor
  · simp [get_current_user, decode_token, jwtDecode, create_refresh_token,
          create_token, jwtEncode, findKey, hx1]
  · simp [refresh_endpoint, jwtDecode, create_access_token,
          create_token, jwtEncode, findKey, hx2]

/-- C2 witness: the amended theorem applied at concrete settings, database,
times and subject. -/
theorem C2_kind_checked_in_callers_witness :
    get_current_user settings0 dbEmpty 5 (create_refresh_token settings0 0 "1") =
      .error ⟨401, "Invalid token type"⟩ ∧
    refresh_endpoint settings0 dbEmpty 5 (create_access_token settings0 0 "1") =
      .error ⟨400, "Invalid token type"⟩ :=
  C2_kind_checked_in_callers settings0 dbEmpty 0 5 "1" (by decide) (by decide)

/-- C3 counterexample: the claim says verification fails when the current
time equals exp.  But the jose-backed `decode_token` succeeds at the exact
expiry instant: an access token issued at time 0 with a 30-minute lifetime
has exp = 1800, and decoding at time 1800 returns the payload instead of
failing (python-jose treats a token as expired only when exp < now). -/
theorem C3_counterexample :
    decode_token settings0 1800 (create_access_token settings0 0 "user-1") =
      .ok [("sub", .str "user-1"), ("type", .str "access"),
           ("iat", .num 0), ("exp", .num 1800)] ∧
    findKey (create_access_token settings0 0 "user-1").payload "exp" =
      some (.num 1800) :=
  ⟨rfl, rfl⟩

/-- C3 amended: for every issued access token, verification succeeds when the
current time is before or equal to exp and fails with an expired-signature
error when the current time is strictly after exp: the boundary comparison
is exp < now (the exact expiry instant is still accepted; there is no
further clock-skew tolerance). -/
theorem C3_expiry_boundary (settings : Settings) (t now : Nat) (sub : String) :
    (now ≤ t + settings.ACCESS_TOKEN_EXPIRE_MINUTES * 60 →
      decode_token settings now (create_access_token settings t sub) =
        .ok (create_access_token settings t sub).payload) ∧
    (t + settings.ACCESS_TOKEN_EXPIRE_MINUTES * 60 < now →
      decode_token settings now (create_access_token settings t sub) =
        .error .expiredSignature) := by
  constructor
  · intro h
    have hx : ¬ (t + settings.ACCESS_TOKEN_EXPIRE_MINUTES * 60 < now) := by omega
    simp [decode_token, jwtDecode, create_access_token, create_token,
          jwtEncode, findKey, hx]
  · intro h
    simp [decode_token, jwtDecode, create_access_token, create_token,
          jwtEncode, findKey, h]

/-- C3 witness: the amended theorem applied at the boundary (now = exp =
1800, accepted) and one second past it (now = 1801, rejected). -/
theorem C3_expiry_boundary_witness :
    decode_token settings0 1800 (create_access_token settings0 0 "u") =
      .ok (create_access_token settings0 0 "u").payload ∧
    decode_token settings0 1801 (create_access_token settings0 0 "u") =
      .error .expiredSignature :=
  ⟨(C3_expiry_boundary settings0 0 1800 "u").1 (by decide),
   (C3_expiry_boundary settings0 0 1801 "u").2 (by decide)⟩

/-- C6 counterexample: the claim says the password-verification operation
never lets an exception cross its boundary.  But `verify_password` in
src/core/security.py calls passlib with no try/except, so on the malformed
hash string "not-a-hash" the passlib error propagates to the caller instead
of a False return. -/
theorem C6_counterexample :
    security_verify_password "secret123" (HashString.malformed "not-a-hash") =
      .error "UnknownHashError: not-a-hash" := rfl

/-- C6 amended: the verification operation of src/api/auth.py (and its twin
in app/core/security.py) is total: it is Bool-valued and returns false on
every malformed or wrongly-tagged hash string, so its callers cannot
distinguish a malformed hash from a cryptographic mismatch; the
src/core/security.py draft, by contrast, propagates the passlib exception
(see the counterexample). -/
theorem C6_api_verify_total (p s : String) :
    api_verify_password p (HashString.malformed s) = false := rfl

/-- C4: for every database state and every correctly signed, still-unexpired
access token whose sub claim names an account stored with is_active = False,
identity resolution (`get_current_user`, src/core/deps.py) fails with 401
Unauthenticated ("Inactive or not found user"): a deactivated account is
never resolved successfully even while its tokens remain cryptographically
valid. -/
theorem C4_deactivated_rejected (settings : Settings) (db : DB) (now : Nat)
    (token : Jwt) (sub : String) (u : Doc) (e : Nat)
    (hkey : token.key = settings.JWT_SECRET)
    (halg : token.alg = settings.JWT_ALG)
    (hexp : findKey token.payload "exp" = some (.num e))
    (hlive : now ≤ e)
    (htype : findKey token.payload "type" = some (.str "access"))
    (hsub : findKey token.payload "sub" = some (.str sub))
    (hsubne : sub ≠ "")
    (hfind : find_one db.users [("_id", .str sub)] = some u)
    (hinact : findKey u "is_active" = some (.bool false)) :
    get_current_user settings db now token =
      .error ⟨401, "Inactive or not found user"⟩ := by
  have hx : ¬ (e < now) := by omega
  simp [get_current_user, decode_token, jwtDecode, hkey, halg, hexp, hx,
        htype, hsub, hsubne, hfind, hinact]

/-- C4 witness: a still-unexpired access token for the deactivated stored
user of `dbInactive` is rejected. -/
theorem C4_deactivated_rejected_witness :
    get_current_user settings0 dbInactive 5 (create_access_token settings0 0 "1") =
      .error ⟨401, "Inactive or not found user"⟩ :=
  C4_deactivated_rejected settings0 dbInactive 5
    (create_access_token settings0 0 "1") "1" inactiveUserDoc 1800
    rfl rfl rfl (by decide) rfl rfl (by decide) (by decide) (by decide)

/-- C5: the credential hasher round-trips — for every plaintext P and salt,
verification of P against hash(P) returns true, and for distinct plaintexts
P ≠ P2 verification of P against hash(P2) returns false; this holds for both
the src/core/security.py wrapper (which returns the passlib result directly)
and the src/api/auth.py wrapper.  The bcrypt primitive itself lives in
passlib, outside src/, and is modelled from the spec as an ideal salted
one-way hash. -/
theorem C5_hash_verify_roundtrip (P P2 : String) (salt salt2 : Nat) :
    api_verify_password P (hash_password salt P) = true ∧
    security_verify_password P (get_password_hash salt P) = .ok true ∧
    (P ≠ P2 → api_verify_password P (hash_password salt2 P2) = false) ∧
    (P ≠ P2 → security_verify_password P (get_password_hash salt2 P2) = .ok false) := by
  refine ⟨?_, ?_, ?_, ?_⟩
  · simp [api_verify_password, hash_password, pwd_context_hash,
          pwd_context_verify, bcrypt_verify, bcrypt_hash]
  · simp [security_verify_password, get_password_hash, pwd_context_hash,
          pwd_context_verify, bcrypt_verify, bcrypt_hash]
  · intro h
    simp [api_verify_password, hash_password, pwd_context_hash,
          pwd_context_verify, bcrypt_verify, bcrypt_hash, h]
  · intro h
    simp [security_verify_password, get_password_hash, pwd_context_hash,
          pwd_context_verify, bcrypt_verify, bcrypt_hash, h]

/-- C5 witness: the round-trip at concrete plaintexts "secret123" ≠
"secret124" and salts 3 and 5. -/
theorem C5_hash_verify_roundtrip_witness :
    api_verify_password "secret123" (hash_password 3 "secret123") = true ∧
    security_verify_password "secret123" (get_password_hash 3 "secret123") = .ok true ∧
    api_verify_password "secret123" (hash_password 5 "secret124") = false ∧
    security_verify_password "secret123" (get_password_hash 5 "secret124") = .ok false :=
  ⟨(C5_hash_verify_roundtrip "secret123" "secret124" 3 5).1,
   (C5_hash_verify_roundtrip "secret123" "secret124" 3 5).2.1,
   (C5_hash_verify_roundtrip "secret123" "secret124" 3 5).2.2.1 (by decide),
   (C5_hash_verify_roundtrip "secret123" "secret124" 3 5).2.2.2 (by decide)⟩

/-- C8: the access-policy guard (`require_roles` of src/core/deps.py, a pure
function of the resolved user and the allowed role list) returns the account
itself unchanged when the account's role is a member of the allowed roles,
and fails with 403 Forbidden ("Insufficient permissions") when it is not. -/
theorem C8_require_roles_guard (roles : List Role) (user : UserInDB) :
    (user.role ∈ roles → require_roles roles user = .ok user) ∧
    (user.role ∉ roles →
      require_roles roles user = .error ⟨403, "Insufficient permissions"⟩) := by
  constructor <;> intro h <;> simp [require_roles, h]

/-- C8 witness: the guard at a concrete patient account — passed through
unchanged for an allowed role set containing patient, rejected with 403 for
a doctor-only role set. -/
theorem C8_require_roles_guard_witness :
    require_roles [Role.patient, Role.admin] sampleUser = .ok sampleUser ∧
    require_roles [Role.doctor] sampleUser =
      .error ⟨403, "Insufficient permissions"⟩ :=
  ⟨(C8_require_roles_guard [Role.patient, Role.admin] sampleUser).1 (by decide),
   (C8_require_roles_guard [Role.doctor] sampleUser).2 (by decide)⟩

/-- A stored user document in the exact shape written by the register of
src/api/routes/auth.py: it stores `password_hash` and sets no `is_active`,
so it lacks both the active flag and the `hashed_password` field the
UserInDB model requires. -/
def apiStoredUserDoc : Doc :=
  [("email", Value.str "b@x.com"), ("password_hash", Value.str "bcrypt$3$secret123"),
   ("role", Value.str "patient"), ("full_name", Value.str "B"), ("_id", Value.str "1")]

/-- A database holding exactly the api-draft-shaped stored user. -/
def dbApiStored : DB := ⟨⟨[apiStoredUserDoc], 2⟩, ⟨[], 1⟩, ⟨[], 1⟩, ⟨[], 1⟩⟩

/-- The UserInDB that `noFlagUserDoc` validates to: is_active defaulted to
True. -/
def noFlagUser : UserInDB := ⟨some "1", "b@x.com", none, Role.patient, true, "h"⟩

/-- C10 counterexample: the claim says resolution succeeds for every stored
user document that lacks the active flag entirely.  The final
`UserInDB.model_validate` step of src/core/deps.py makes that false: this
stored document lacks `is_active`, is found by a valid, unexpired,
correctly signed access token, and yet resolution fails — the document
(shaped like the src/api/routes/auth.py register output, with
`password_hash`) has no `hashed_password` field, so pydantic validation
raises a ValidationError that surfaces as an unhandled 500 instead of a
successful resolution. -/
theorem C10_counterexample :
    findKey apiStoredUserDoc "is_active" = none ∧
    find_one dbApiStored.users [("_id", Value.str "1")] = some apiStoredUserDoc ∧
    get_current_user settings0 dbApiStored 5 (create_access_token settings0 0 "1") =
      .error ⟨500, "ValidationError"⟩ := ⟨rfl, rfl, rfl⟩

/-- C10 amended: identity resolution rejects an account as inactive only
when the stored document's `is_active` field is present and exactly False
(the raw-document check `user_doc.get("is_active") is False` runs before
validation); for every stored user document that lacks the active flag and
carries the fields the UserInDB model requires — so that pydantic
validation succeeds — resolving a valid access token succeeds and the
account is treated as active: the resolved account's is_active is the
model default True.  A flag-lacking document missing a required field
fails validation instead (see the counterexample). -/
theorem C10_missing_active_flag_resolves (settings : Settings) (db : DB)
    (t now : Nat) (sub : String) (u : Doc) (usr : UserInDB)
    (hsubne : sub ≠ "")
    (hlive : now ≤ t + settings.ACCESS_TOKEN_EXPIRE_MINUTES * 60)
    (hfind : find_one db.users [("_id", .str sub)] = some u)
    (hact : findKey u "is_active" = none)
    (hval : UserInDB.model_validate u = some usr) :
    get_current_user settings db now (create_access_token settings t sub) =
      .ok usr ∧
    usr.is_active = true := by
  have hx : ¬ (t + settings.ACCESS_TOKEN_EXPIRE_MINUTES * 60 < now) := by omega
  constructor
  · simp [get_current_user, decode_token, jwtDecode, create_access_token,
          create_token, jwtEncode, findKey, hx, hsubne, hfind, hact, hval]
  · simp [UserInDB.model_validate, hact, validate_is_active,
          Option.bind_eq_some] at hval
    obtain ⟨i, hi, e, he, f, hf, r, hr, hp, hhp, husr⟩ := hval
    subst husr
    rfl

/-- C10 witness: the stored user of `dbNoFlag` lacks the `is_active` field
but carries every field UserInDB requires; a valid access token for it
resolves to the validated account, whose is_active is True. -/
theorem C10_missing_active_flag_resolves_witness :
    get_current_user settings0 dbNoFlag 5 (create_access_token settings0 0 "1") =
      .ok noFlagUser ∧
    noFlagUser.is_active = true :=
  C10_missing_active_flag_resolves settings0 dbNoFlag 0 5 "1" noFlagUserDoc
    noFlagUser (by decide) (by decide) rfl rfl rfl

/-- C7: a successful `register` (src/api/routes/auth.py) followed by a second
register with the same email makes the second call fail with 409
"Email already registered" (the DuplicateEmail outcome), and the account
created by the first call is untouched: the failing call returns before any
write (in the embedding an error carries no database state), and the first
call's user document is still found under that email afterwards. -/
theorem C7_duplicate_email_rejected (db db2 : DB) (salt salt2 : Nat)
    (p p2 : RegisterRequest) (u : UserPublic)
    (h1 : api_register db salt p = .ok (db2, u))
    (hrole : p2.role = "patient" ∨ p2.role = "doctor")
    (hemail : p2.email = p.email) :
    api_register db2 salt2 p2 = .error ⟨409, "Email already registered"⟩ ∧
    find_one db2.users [("email", .str p.email)] ≠ none := by
  unfold api_register at h1
  by_cases hr : p.role ≠ "patient" ∧ p.role ≠ "doctor"
  · rw [if_pos hr] at h1; cases h1
  · rw [if_neg hr] at h1
    cases hfind : find_one db.users [("email", Value.str p.email)] with
    | some d => rw [hfind] at h1; cases h1
    | none =>
      rw [hfind] at h1
      have hp : p.role = "patient" ∨ p.role = "doctor" := by tauto
      rcases hp with hp | hp <;>
      · simp [hp, insert_one] at h1
        obtain ⟨hdb2, hu⟩ := h1
        subst hdb2
        have hfound : find_one
            ⟨db.users.data ++
               [api_user_doc salt p ++
                  [("_id", Value.str (toString db.users.idCounter))]],
             db.users.idCounter + 1⟩
            [("email", Value.str p.email)] =
            some (api_user_doc salt p ++
                  [("_id", Value.str (toString db.users.idCounter))]) := by
          unfold find_one at hfind ⊢
          rw [List.find?_append, hfind]
          simp [matchesFilter, api_user_doc, findKey]
        refine ⟨?_, by simp [hfound]⟩
        rcases hrole with hr2 | hr2 <;> simp [api_register, hr2, hemail, hfound]

/-- The database after `api_register dbEmpty 3 regPatient` (computed): the
new user document and the linked patient profile stub, both with id "1". -/
def dbAfterFirstRegister : DB :=
  ⟨⟨[[("email", Value.str "a@x.com"), ("password_hash", Value.str "bcrypt$3$secret123"),
      ("role", Value.str "patient"), ("full_name", Value.str "A"), ("_id", Value.str "1")]], 2⟩,
   ⟨[[("user_id", Value.str "1"), ("email", Value.str "a@x.com"), ("full_name", Value.str "A"),
      ("role", Value.str "patient"), ("medical_history", Value.listStr []),
      ("allergies", Value.listStr []), ("age", Value.null), ("_id", Value.str "1")]], 2⟩,
   ⟨[], 1⟩, ⟨[], 1⟩⟩

/-- The public user returned by the first concrete registration. -/
def firstUserPublic : UserPublic := ⟨"1", "a@x.com", "patient", some "A"⟩

/-- A second registration request re-using the first one's email. -/
def regDup : RegisterRequest := ⟨"a@x.com", "other-456", some "B", "doctor"⟩

/-- C7 witness: registering "a@x.com" on the empty database and then
registering the same email again yields 409, with the first account still
present. -/
theorem C7_duplicate_email_rejected_witness :
    api_register dbAfterFirstRegister 4 regDup =
      .error ⟨409, "Email already registered"⟩ ∧
    find_one dbAfterFirstRegister.users [("email", Value.str "a@x.com")] ≠ none :=
  C7_duplicate_email_rejected dbEmpty dbAfterFirstRegister 3 4 regPatient regDup
    firstUserPublic rfl (Or.inr rfl) rfl

/-- C9 counterexample: the claim says a successful register stores the
requested role and creates the matching role-profile.  But `register_user`
(src/routers/auth.py) overwrites the requested role with "patient"
("Force role patient for this register path"): registering with requested
role doctor on the empty database succeeds, yet the created account's
stored role is "patient". -/
theorem C9_counterexample :
    doctorPayload.role = Role.doctor ∧
    (match register_user dbEmpty 3 doctorPayload with
     | .ok (_, created) => findKey created "role"
     | .error _ => none) = some (Value.str "patient") := ⟨rfl, rfl⟩

/-- C9 amended: in the src/api/routes/auth.py draft of register, a
successful call does store the requested role and creates the matching
role-profile stub — with default/empty role-specific fields, linked by the
new account id — in the patients collection for role "patient" and in the
doctors collection for role "doctor"; the src/routers/auth.py draft instead
forces the stored role to "patient" and always creates a patient profile
(see the counterexample). -/
theorem C9_requested_role_and_profile (db : DB) (salt : Nat)
    (p : RegisterRequest)
    (hmail : find_one db.users [("email", .str p.email)] = none) :
    (p.role = "patient" →
      api_register db salt p =
        .ok ({ db with
               users := (insert_one db.users (api_user_doc salt p)).1,
               patients := (insert_one db.patients
                 (profile_stub (toString db.users.idCounter) p)).1 },
             ⟨toString db.users.idCounter, p.email, p.role, p.full_name⟩)) ∧
    (p.role = "doctor" →
      api_register db salt p =
        .ok ({ db with
               users := (insert_one db.users (api_user_doc salt p)).1,
               doctors := (insert_one db.doctors
                 (profile_stub (toString db.users.idCounter) p)).1 },
             ⟨toString db.users.idCounter, p.email, p.role, p.full_name⟩)) := by
  constructor <;> intro h <;> simp [api_register, hmail, h, insert_one]

/-- C9 witness: the amended theorem at concrete patient and doctor
registrations on the empty database. -/
theorem C9_requested_role_and_profile_witness :
    api_register dbEmpty 3 regPatient =
      .ok ({ dbEmpty with
             users := (insert_one dbEmpty.users (api_user_doc 3 regPatient)).1,
             patients := (insert_one dbEmpty.patients
               (profile_stub (toString dbEmpty.users.idCounter) regPatient)).1 },
           ⟨toString dbEmpty.users.idCounter, regPatient.email, regPatient.role,
            regPatient.full_name⟩) ∧
    api_register dbEmpty 3 regDoctor =
      .ok ({ dbEmpty with
             users := (insert_one dbEmpty.users (api_user_doc 3 regDoctor)).1,
             doctors := (insert_one dbEmpty.doctors
               (profile_stub (toString dbEmpty.users.idCounter) regDoctor)).1 },
           ⟨toString dbEmpty.users.idCounter, regDoctor.email, regDoctor.role,
            regDoctor.full_name⟩) :=
  ⟨(C9_requested_role_and_profile dbEmpty 3 regPatient rfl).1 rfl,
   (C9_requested_role_and_profile dbEmpty 3 regDoctor rfl).2 rfl⟩

end Healthcare
